import Mathlib

/-!
Verification of the FastAPI + Streamlit demo (fastapi_backend.py,
streamlit_frontend.py).

The backend declares a pydantic model `Item` (name : str, description :
Optional[str] = None, price : float) and three routes: `read_root`,
`create_item`, `read_item`.  The frontend builds a create payload from three
widgets and renders responses of the two item routes.

Request payloads are modelled as association lists of JSON scalar values;
pydantic validation is modelled field by field (lax coercion in the style of
pydantic v2: a str field accepts only JSON text, an Optional[str] field
additionally accepts null or absence, a float field accepts a JSON number or
a numeric string).  Floats are modelled as rationals.
-/

/-- Scalar JSON values as they appear in the request payloads of this app. -/
inductive JsonVal where
  | null : JsonVal
  | str : String → JsonVal
  | num : Rat → JsonVal
  | bool : Bool → JsonVal
deriving DecidableEq

/-- A JSON object payload: an association list from field names to values. -/
def Payload : Type := List (String × JsonVal)

instance : DecidableEq Payload := by
  unfold Payload
  infer_instance

/-- The request body model of fastapi_backend.py:
`class Item(BaseModel): name: str; description: Optional[str] = None; price: float`. -/
structure Item where
  name : String
  description : Option String := none
  price : Rat
deriving DecidableEq

/-- Coercion into a `str` field: only JSON text is accepted. -/
def coerceStr : JsonVal → Option String
  | JsonVal.str s => some s
  | _ => none

/-- Coercion into the `Optional[str]` field from an absent or present value:
absence and JSON null both yield the default `None`; text yields the text. -/
def coerceOptStr : Option JsonVal → Option (Option String)
  | none => some none
  | some JsonVal.null => some none
  | some (JsonVal.str s) => some (some s)
  | some _ => none

/-- Numeric value of a list of decimal digit characters. -/
def digitsVal (cs : List Char) : Nat :=
  cs.foldl (fun a c => 10 * a + (c.toNat - 48)) 0

/-- Parse a nonempty all-digit character list as a natural number. -/
def parseDigits? (cs : List Char) : Option Nat :=
  if cs ≠ [] ∧ cs.all Char.isDigit then some (digitsVal cs) else none

/-- Parse an unsigned decimal literal (digits with an optional fractional
part) as a rational, the way a numeric string coerces into a float field. -/
def parseUnsignedDecimal? (cs : List Char) : Option Rat :=
  match cs.splitOn '.' with
  | [whole] => (parseDigits? whole).map (fun n => (n : Rat))
  | [whole, frac] =>
      if (whole ≠ [] ∨ frac ≠ []) ∧ whole.all Char.isDigit ∧ frac.all Char.isDigit then
        some ((digitsVal whole : Rat) + (digitsVal frac : Rat) / ((10 : Rat) ^ frac.length))
      else none
  | _ => none

/-- Parse a signed decimal literal as a rational. -/
def parseSignedDecimal? (cs : List Char) : Option Rat :=
  match cs with
  | '-' :: rest => (parseUnsignedDecimal? rest).map (fun q => -q)
  | '+' :: rest => parseUnsignedDecimal? rest
  | _ => parseUnsignedDecimal? cs

/-- Coercion into a `float` field: a JSON number, or text parseable as a
decimal number; anything else (null, bool) is rejected. -/
def coerceFloat : JsonVal → Option Rat
  | JsonVal.num q => some q
  | JsonVal.str s => parseSignedDecimal? s.toList
  | _ => none

/-- Validation of a request body against the `Item` model: each declared
field is looked up and coerced; `description` falls back to its default
`None` when absent.  Extra fields are ignored, as pydantic does by default. -/
def validateItem (p : Payload) : Option Item := do
  let n ← (List.lookup "name" p).bind coerceStr
  let d ← coerceOptStr (List.lookup "description" p)
  let pr ← (List.lookup "price" p).bind coerceFloat
  pure { name := n, description := d, price := pr }

/-- Response of the root route. -/
structure RootResp where
  message : String
deriving DecidableEq

/-- `def read_root(): return {"message": "Welcome to the FastAPI app!"}`. -/
def read_root : RootResp :=
  { message := "Welcome to the FastAPI app!" }

/-- Response of the create route: the confirmation message and the echo. -/
structure CreateResp where
  message : String
  item : Item
deriving DecidableEq

/-- `def create_item(item: Item): return {"message": f"Item {item.name}
created successfully!", "item": item}`. -/
def create_item (item : Item) : CreateResp :=
  { message := "Item " ++ item.name ++ " created successfully!", item := item }

/-- Response of the item lookup route. -/
structure ReadItemResp where
  item_id : Int
  square : Int
deriving DecidableEq

/-- `def read_item(item_id: int, q: Optional[str] = None): return {"item_id":
item_id, "square": item_id ** 2}`.  The query parameter `q` is accepted and
unused. -/
def read_item (item_id : Int) (q : Option String) : ReadItemResp :=
  { item_id := item_id, square := item_id ^ 2 }

/-- Outcome of a route call: the handler result, or the framework's
validation error (a non-success status with no further structure). -/
inductive HandlerResult (α : Type) where
  | ok : α → HandlerResult α
  | validation_error : HandlerResult α
deriving DecidableEq

/-- The POST /items/ route: the body is validated against `Item`; on failure
the framework rejects the request with a validation error, on success the
handler `create_item` runs on the validated item. -/
def postItemsRoute (p : Payload) : HandlerResult CreateResp :=
  match validateItem p with
  | some it => HandlerResult.ok (create_item it)
  | none => HandlerResult.validation_error

/-- Coercion of the `item_id` path parameter from its transport text into an
int: an optional sign followed by one or more decimal digits. -/
def parsePathInt? (s : String) : Option Int :=
  match s.toList with
  | '-' :: rest => (parseDigits? rest).map (fun n => -(n : Int))
  | '+' :: rest => (parseDigits? rest).map (fun n => (n : Int))
  | cs => (parseDigits? cs).map (fun n => (n : Int))

/-- The GET /items/\x7bitem_id\x7d route: the path parameter is coerced to an
int; on failure the framework rejects the request with a validation error,
on success the handler `read_item` runs. -/
def getItemRoute (raw : String) (q : Option String) : HandlerResult ReadItemResp :=
  match parsePathInt? raw with
  | some n => HandlerResult.ok (read_item n q)
  | none => HandlerResult.validation_error

/-- A request to the backend: one of the three routes. -/
inductive Request where
  | root : Request
  | createItem : Payload → Request
  | getItem : String → Option String → Request

/-- A response from the backend. -/
inductive Response where
  | rootResp : RootResp → Response
  | createResp : HandlerResult CreateResp → Response
  | getResp : HandlerResult ReadItemResp → Response
deriving DecidableEq

/-- Dispatch of a request to its handler. -/
def handle : Request → Response
  | Request.root => Response.rootResp read_root
  | Request.createItem p => Response.createResp (postItemsRoute p)
  | Request.getItem raw q => Response.getResp (getItemRoute raw q)

/-- The backend's mutable state.  fastapi_backend.py defines no store and no
module-level mutable binding that any handler reads or writes, so the state
has no fields. -/
structure ServerState where
deriving DecidableEq

/-- One request/response exchange: the handler runs on the request alone and
the state passes through untouched. -/
def serverStep (s : ServerState) (r : Request) : ServerState × Response :=
  (s, handle r)

/-- What the client renders after a button press: a success banner with the
value it pulled out of the body, the two write lines of the lookup display,
the fixed error banner, or an uncaught exception (a missing key raises
KeyError in the handler script). -/
inductive Display where
  | success : JsonVal → Display
  | write : JsonVal → JsonVal → Display
  | error : String → Display
  | exception : Display
deriving DecidableEq

/-- An HTTP response as the client observes it: a status code and a JSON
object body. -/
structure HttpResponse where
  status_code : Nat
  body : Payload
deriving DecidableEq

/-- The Create Item button handler of streamlit_frontend.py: on status 200
it renders `response.json()["message"]` as a success banner (raising if the
key is absent); otherwise it renders the fixed error banner. -/
def createClickRender (resp : HttpResponse) : Display :=
  if resp.status_code = 200 then
    match List.lookup "message" resp.body with
    | some v => Display.success v
    | none => Display.exception
  else Display.error "Failed to create the item."

/-- The Get Item Details button handler of streamlit_frontend.py: on status
200 it writes `item["item_id"]` (raising if absent) and
`item.get("square", "No query provided")`; otherwise it renders the fixed
error banner. -/
def getClickRender (resp : HttpResponse) : Display :=
  if resp.status_code = 200 then
    match List.lookup "item_id" resp.body with
    | some v =>
        Display.write v ((List.lookup "square" resp.body).getD (JsonVal.str "No query provided"))
    | none => Display.exception
  else Display.error "Failed to fetch item details."

/-- Success in the HTTP sense: any 2xx status code. -/
def isSuccessStatus (c : Nat) : Bool :=
  200 ≤ c && c < 300

/-- The value produced by a number input widget with a lower bound: the
widget never yields a value below its `min_value`. -/
def st_number_input (minv raw : Rat) : Rat :=
  max minv raw

/-- The payload the client builds on Create Item: all three widget values,
with `description` sent as text (possibly empty) and `price` the value of a
number input with `min_value=0.0`. -/
def item_data (name description : String) (rawPrice : Rat) : Payload :=
  [("name", JsonVal.str name),
   ("description", JsonVal.str description),
   ("price", JsonVal.num (st_number_input 0 rawPrice))]

/-- The failure condition claimed for create-item validation: name missing,
or price missing or not coercible to a number. -/
def claimedFailCond (p : Payload) : Bool :=
  (List.lookup "name" p).isNone ||
    match List.lookup "price" p with
    | none => true
    | some v => (coerceFloat v).isNone

/-- C1: for every integer n (and any value of the unused query parameter),
read_item succeeds and returns exactly the record with item_id n and square
n*n; the handler is total, with no existence check and no not-found path. -/
theorem c1_read_item_square (n : Int) (q : Option String) :
    read_item n q = { item_id := n, square := n * n } := by
  simp [read_item, pow_two]

/-- C2: for every validated input, create_item returns a message containing
the item's name verbatim, together with an echo equal to the validated item
(description included). -/
theorem c2_create_item_echo (it : Item) :
    (∃ s₁ s₂, (create_item it).message = s₁ ++ it.name ++ s₂) ∧
      (create_item it).item = it :=
  ⟨⟨"Item ", " created successfully!", rfl⟩, rfl⟩

/-- C3 counterexample: the claimed failure condition (name missing, or price
missing or not coercible) is not exact.  The payload with name set to JSON
null and price 1 has a present name and a coercible price, yet validation
fails, because null is not a valid value for the required str field name. -/
theorem c3_counterexample_null_name :
    ¬ (validateItem [("name", JsonVal.null), ("price", JsonVal.num 1)] = none ↔
        claimedFailCond [("name", JsonVal.null), ("price", JsonVal.num 1)] = true) := by
  decide

/-- C3 (amended): create-item validation fails exactly when the name field
is missing or not coercible to text, or the description field is present but
neither null nor text, or the price field is missing or not coercible to a
number; and a payload with a text name, a numeric price and no description
is accepted with description defaulting to absent. -/
theorem c3_amended_validation_exact :
    (∀ p : Payload, validateItem p = none ↔
      ((List.lookup "name" p).bind coerceStr = none ∨
        coerceOptStr (List.lookup "description" p) = none ∨
        (List.lookup "price" p).bind coerceFloat = none)) ∧
      (∀ (n : String) (pr : Rat),
        validateItem [("name", JsonVal.str n), ("price", JsonVal.num pr)] =
          some { name := n, description := none, price := pr }) := by
  constructor
  · intro p
    rcases h₁ : (List.lookup "name" p).bind coerceStr with _ | n <;>
      rcases h₂ : coerceOptStr (List.lookup "description" p) with _ | d <;>
        rcases h₃ : (List.lookup "price" p).bind coerceFloat with _ | pr <;>
          simp [validateItem, h₁, h₂, h₃]
  · intro n pr
    rfl

/-- C4: the lookup route fails with a validation error exactly when the raw
item_id path parameter is not integer-parseable, and succeeds with the
square response on every parseable id; concretely, the id "abc" fails. -/
theorem c4_path_param_validation :
    (∀ (s : String) (q : Option String),
      (∃ n, parsePathInt? s = some n ∧
        getItemRoute s q = HandlerResult.ok { item_id := n, square := n * n }) ∨
      (parsePathInt? s = none ∧ getItemRoute s q = HandlerResult.validation_error)) ∧
      getItemRoute "abc" none = HandlerResult.validation_error := by
  constructor
  · intro s q
    rcases h : parsePathInt? s with _ | n
    · exact Or.inr ⟨rfl, by simp [getItemRoute, h]⟩
    · exact Or.inl ⟨n, rfl, by simp [getItemRoute, h, read_item, pow_two]⟩
  · decide

/-- C5: each handler is a pure function of its validated input: two create
calls whose payloads validate to the same item give equal responses, and
read_item never depends on the optional query parameter q. -/
theorem c5_pure_of_validated_input (p₁ p₂ : Payload) (it : Item)
    (h₁ : validateItem p₁ = some it) (h₂ : validateItem p₂ = some it) :
    postItemsRoute p₁ = postItemsRoute p₂ ∧
      ∀ (n : Int) (q₁ q₂ : Option String), read_item n q₁ = read_item n q₂ := by
  refine ⟨?_, fun n q₁ q₂ => rfl⟩
  simp [postItemsRoute, h₁, h₂]

/-- C5 witness: two distinct raw payloads (field order permuted, description
absent in one and null in the other) validate to the same item and get equal
responses. -/
theorem c5_witness :
    validateItem [("name", JsonVal.str "a"), ("price", JsonVal.num 2)] =
        some { name := "a", description := none, price := 2 } ∧
      validateItem
          [("price", JsonVal.num 2), ("name", JsonVal.str "a"), ("description", JsonVal.null)] =
        some { name := "a", description := none, price := 2 } ∧
      postItemsRoute [("name", JsonVal.str "a"), ("price", JsonVal.num 2)] =
        postItemsRoute
          [("price", JsonVal.num 2), ("name", JsonVal.str "a"), ("description", JsonVal.null)] :=
  ⟨rfl, rfl,
    (c5_pure_of_validated_input
      [("name", JsonVal.str "a"), ("price", JsonVal.num 2)]
      [("price", JsonVal.num 2), ("name", JsonVal.str "a"), ("description", JsonVal.null)]
      { name := "a", description := none, price := 2 } rfl rfl).1⟩

/-- C6: a create-item exchange leaves the server state unmodified (there is
no store), and the response of a subsequent get-item call equals its
response without the earlier create. -/
theorem c6_create_no_side_effect (s : ServerState) (p : Payload)
    (raw : String) (q : Option String) :
    (serverStep s (Request.createItem p)).1 = s ∧
      (serverStep (serverStep s (Request.createItem p)).1 (Request.getItem raw q)).2 =
        (serverStep s (Request.getItem raw q)).2 :=
  ⟨rfl, rfl⟩

/-- C7: on any non-success status the client renders exactly the fixed
generic failure banner of the pressed button, whatever the body says. -/
theorem c7_nonsuccess_generic_message (resp : HttpResponse)
    (h : isSuccessStatus resp.status_code = false) :
    createClickRender resp = Display.error "Failed to create the item." ∧
      getClickRender resp = Display.error "Failed to fetch item details." := by
  have hne : resp.status_code ≠ 200 := by
    intro he
    rw [he] at h
    exact (by decide : isSuccessStatus 200 ≠ false) h
  simp [createClickRender, getClickRender, hne]

/-- C7 witness: a 404 response renders both fixed failure banners. -/
theorem c7_witness :
    isSuccessStatus 404 = false ∧
      (createClickRender { status_code := 404, body := [] } =
          Display.error "Failed to create the item." ∧
        getClickRender { status_code := 404, body := [] } =
          Display.error "Failed to fetch item details.") :=
  ⟨by decide, c7_nonsuccess_generic_message { status_code := 404, body := [] } (by decide)⟩

/-- C8: the root route takes no input and returns the fixed greeting
payload. -/
theorem c8_root_fixed_greeting :
    read_root = { message := "Welcome to the FastAPI app!" } := rfl

/-- C9: the client's success test is equality with 200 exactly: the generic
failure banner appears for precisely the responses whose status differs
from 200, including the success statuses 201 and 204. -/
theorem c9_success_test_is_exactly_200 :
    (∀ resp : HttpResponse,
      (createClickRender resp = Display.error "Failed to create the item." ↔
        resp.status_code ≠ 200) ∧
      (getClickRender resp = Display.error "Failed to fetch item details." ↔
        resp.status_code ≠ 200)) ∧
      createClickRender { status_code := 201, body := [("message", JsonVal.str "ok")] } =
        Display.error "Failed to create the item." ∧
      getClickRender { status_code := 204, body := [] } =
        Display.error "Failed to fetch item details." := by
  refine ⟨fun resp => ?_, by decide, by decide⟩
  by_cases h : resp.status_code = 200
  · rcases hm : List.lookup "message" resp.body with _ | v <;>
      rcases hi : List.lookup "item_id" resp.body with _ | w <;>
        simp [createClickRender, getClickRender, h, hm, hi]
  · simp [createClickRender, getClickRender, h]

/-- C10: every create submission of the client carries all three fields,
with description always sent as (possibly empty) text and price the clamped
non-negative widget value; the validated item therefore always has a present
description, so the default-absent branch is never exercised. -/
theorem c10_client_payload_shape (name description : String) (rawPrice : Rat) :
    List.lookup "name" (item_data name description rawPrice) = some (JsonVal.str name) ∧
      List.lookup "description" (item_data name description rawPrice) =
        some (JsonVal.str description) ∧
      List.lookup "price" (item_data name description rawPrice) =
        some (JsonVal.num (st_number_input 0 rawPrice)) ∧
      0 ≤ st_number_input 0 rawPrice ∧
      validateItem (item_data name description rawPrice) =
        some { name := name, description := some description,
               price := st_number_input 0 rawPrice } :=
  ⟨rfl, rfl, rfl, le_max_left 0 rawPrice, rfl⟩
